import Mathlib

/-!
Shallow embedding of the SMART-TASK-AI2 authentication core
(`src/server/src/modules/auth/auth.service.ts`,
`src/server/src/modules/auth/session.repository.ts`,
`src/server/src/config/auth.config.ts`).

Timestamps are naturals (milliseconds since epoch).  The Prisma store is a
`Db` record holding the user and session tables as lists; `findUnique`
becomes `List.find?`, `updateMany` becomes a guarded `List.map`.  Stateful
service methods are state-passing functions `Db → ... → Except AuthError α × Db`;
a thrown `AuthError` is the `Except.error` branch.
-/

namespace SmartTask

/-- Model of JavaScript `String.prototype.toLowerCase()` used for e-mail
normalization (`data.email.toLowerCase()`). -/
def lowerStr (s : String) : String := ⟨s.data.map Char.toLower⟩

structure JwtConfig where
  secret : String
  algorithm : String
  accessTokenExpiryMs : Nat
  deriving Repr, DecidableEq

structure SecurityConfig where
  maxFailedLoginAttempts : Nat
  accountLockoutDurationMs : Nat
  deriving Repr, DecidableEq

structure AuthConfig where
  jwt : JwtConfig
  security : SecurityConfig
  deriving Repr, DecidableEq

/-- From `src/server/src/config/auth.config.ts`: default JWT algorithm HS512,
access-token expiry 10 minutes (`'10m'`), `maxFailedLoginAttempts: 5`,
`accountLockoutDuration: 15 * 60 * 1000` milliseconds. -/
def authConfig : AuthConfig :=
  { jwt := { secret := "fallback-secret-change-in-production"
           , algorithm := "HS512"
           , accessTokenExpiryMs := 10 * 60 * 1000 }
  , security := { maxFailedLoginAttempts := 5
                , accountLockoutDurationMs := 15 * 60 * 1000 } }

/-- Model of the external argon2 capability (spec §2 `PasswordHasher`, an
out-of-scope collaborator): hashing is an injective opaque encoding. -/
def hashPassword (plaintext : String) : String := "argon2id$" ++ plaintext

/-- Model of `argon2.verify(digest, plaintext)`: holds iff the digest was produced
from the plaintext. -/
def verifyPassword (digest plaintext : String) : Bool :=
  digest == hashPassword plaintext

/-- JWT claim set minted by `generateAccessToken`:
`{ userId, email, type: 'access' }`. -/
structure JwtPayload where
  userId : String
  email : String
  type : String
  deriving Repr, DecidableEq

/-- A structurally well-formed signed JWT.  `secret` records which key
produced the signature; `alg` is the header algorithm; `issuer`/`audience`
are the registered claims `jwt.sign` embeds from its options; `expiresAt`
is the absolute expiry derived from `expiresIn`. -/
structure SignedJwt where
  payload : JwtPayload
  secret : String
  alg : String
  issuer : Option String
  audience : Option String
  expiresAt : Nat
  deriving Repr, DecidableEq

/-- Input to token validation: either a structurally malformed string or a
well-formed signed token. -/
inductive JwtInput where
  | malformed (raw : String)
  | signed (t : SignedJwt)
  deriving Repr, DecidableEq

inductive JwtError where
  | malformedToken
  | invalidAlgorithm
  | invalidSignature
  | tokenExpired
  deriving Repr, DecidableEq

/-- Model of `jsonwebtoken`'s `jwt.verify(token, secret, { algorithms })` as
called at `auth.service.ts:288-290`: it throws (here: `Except.error`) on a
malformed token, a header algorithm outside the allowed list, a bad
signature, or an expired token.  The source passes no `issuer`/`audience`
options, so the library does not check those claims. -/
def jwtVerify (input : JwtInput) (secret : String) (algorithms : List String)
    (now : Nat) : Except JwtError JwtPayload :=
  match input with
  | .malformed _ => .error .malformedToken
  | .signed t =>
    if ¬ algorithms.contains t.alg then .error .invalidAlgorithm
    else if t.secret ≠ secret then .error .invalidSignature
    else if t.expiresAt ≤ now then .error .tokenExpired
    else .ok t.payload

/-- User record (Prisma `User` model), fields as read/written by
`auth.service.ts`. -/
structure User where
  id : String
  email : String
  password : String
  name : Option String
  isActive : Bool
  isLocked : Bool
  failedLoginAttempts : Nat
  lockedUntil : Option Nat
  deriving Repr, DecidableEq

/-- Session record (Prisma `Session` model), fields as read/written by
`session.repository.ts`. -/
structure Session where
  id : String
  userId : String
  refreshToken : String
  isRevoked : Bool
  expiresAt : Nat
  createdAt : Nat
  deriving Repr, DecidableEq

/-- The persistent store: user table, session table, and a counter
supplying fresh ids/uuids (models `uuidv4()` / cuid generation). -/
structure Db where
  users : List User
  sessions : List Session
  nextId : Nat
  deriving Repr, DecidableEq

/-- Embeds `prisma.user.findUnique({ where: { email } })`. -/
def findUserByEmail (db : Db) (email : String) : Option User :=
  db.users.find? (fun u => u.email == email)

/-- Embeds `prisma.user.findUnique({ where: { id } })`. -/
def findUserById (db : Db) (id : String) : Option User :=
  db.users.find? (fun u => u.id == id)

/-- Embeds `prisma.user.update({ where: { id }, data })`: patch the rows whose id
matches. -/
def updateUser (db : Db) (id : String) (f : User → User) : Db :=
  { db with users := db.users.map (fun u => if u.id == id then f u else u) }

/-- Embeds `prisma.session.findUnique({ where: { refreshToken } })`
(`SessionRepository.findByRefreshToken`). -/
def findSessionByToken (db : Db) (token : String) : Option Session :=
  db.sessions.find? (fun s => s.refreshToken == token)

/-- The `where` filter of `SessionRepository.revokeSession`'s `updateMany`:
`{ id: sessionId, ...(userId && { userId }) }`.  JavaScript truthiness: an
empty-string `userId` is falsy, so the owner filter is only spread for a
present, non-empty `userId`. -/
def revokeMatch (sessionId : String) (owner : Option String) (s : Session) : Bool :=
  s.id == sessionId &&
    (match owner with
     | none => true
     | some u => if u == "" then true else s.userId == u)

/-- Embeds `SessionRepository.revokeSession(sessionId, userId?)`: a single
`updateMany` setting `isRevoked: true` on every row matching the filter;
returns `result.count > 0`.  The filter does not test `isRevoked`. -/
def revokeSession (db : Db) (sessionId : String) (owner : Option String) :
    Bool × Db :=
  let count := (db.sessions.filter (revokeMatch sessionId owner)).length
  ( count > 0
  , { db with sessions := db.sessions.map (fun s =>
        if revokeMatch sessionId owner s then { s with isRevoked := true } else s) } )

/-- Embeds `SessionRepository.revokeAllSessionsByUserId(userId)`: `updateMany`
over `{ userId, isRevoked: false }` setting `isRevoked: true`; returns the
affected count. -/
def revokeAllSessionsByUserId (db : Db) (userId : String) : Nat × Db :=
  let count := (db.sessions.filter (fun s => s.userId == userId && s.isRevoked == false)).length
  ( count
  , { db with sessions := db.sessions.map (fun s =>
        if s.userId == userId && s.isRevoked == false then { s with isRevoked := true } else s) } )

/-- Embeds `SessionRepository.findActiveSessionsByUserId(userId)`: rows with the
given owner, `isRevoked: false` and `expiresAt > now` (the `orderBy`
clause only permutes the result and is not modelled). -/
def findActiveSessionsByUserId (db : Db) (userId : String) (now : Nat) :
    List Session :=
  db.sessions.filter (fun s => s.userId == userId && s.isRevoked == false && now < s.expiresAt)

/-- Embeds `SessionRepository.createSession(userId, expiresAt)` with
`refreshToken = uuidv4()`; fresh values are drawn from the store counter. -/
def createSession (db : Db) (userId : String) (expiresAt now : Nat) :
    Session × Db :=
  let s : Session :=
    { id := "session-" ++ toString db.nextId
    , userId := userId
    , refreshToken := "uuid-" ++ toString db.nextId
    , isRevoked := false
    , expiresAt := expiresAt
    , createdAt := now }
  (s, { db with sessions := db.sessions ++ [s], nextId := db.nextId + 1 })

/-- Service-level error codes thrown by `auth.service.ts`. -/
inductive AuthError where
  | userExists
  | invalidCredentials
  | accountLocked
  | accountInactive
  | invalidRefreshToken
  | tokenReuseDetected
  | refreshTokenExpired
  | userInvalid
  | userNotFound
  | invalidPassword
  | registrationFailed
  deriving Repr, DecidableEq

/-- Embeds `AuthService.generateAccessToken(user)`: signs
`{ userId, email, type: 'access' }` with the configured secret/algorithm,
issuer `smart-task-ai2`, audience `smart-task-ai2-users`, and the
configured expiry. -/
def generateAccessToken (user : User) (now : Nat) : SignedJwt :=
  { payload := { userId := user.id, email := user.email, type := "access" }
  , secret := authConfig.jwt.secret
  , alg := authConfig.jwt.algorithm
  , issuer := some "smart-task-ai2"
  , audience := some "smart-task-ai2-users"
  , expiresAt := now + authConfig.jwt.accessTokenExpiryMs }

/-- Embeds `AuthService.validateAccessToken(token)`: `jwt.verify` with only the
`algorithms` option, inside try/catch returning `null` on any throw; then
rejects payloads whose `type` claim is not `"access"`. -/
def validateAccessToken (token : JwtInput) (now : Nat) :
    Option (String × String) :=
  match jwtVerify token authConfig.jwt.secret [authConfig.jwt.algorithm] now with
  | .error _ => none
  | .ok decoded =>
    if decoded.type ≠ "access" then none
    else some (decoded.userId, decoded.email)

/-- Embeds `AuthService.refreshToken(refreshToken)` at `auth.service.ts:161-212`:
unknown token → `INVALID_REFRESH_TOKEN`; revoked session → revoke all the
owner's sessions and `TOKEN_REUSE_DETECTED`; `expiresAt < now` → revoke
this session and `REFRESH_TOKEN_EXPIRED`; missing/inactive/locked owner →
revoke this session and `USER_INVALID`; otherwise mint a fresh access
token, leaving the store untouched. -/
def refreshToken (db : Db) (token : String) (now : Nat) :
    Except AuthError SignedJwt × Db :=
  match findSessionByToken db token with
  | none => (.error .invalidRefreshToken, db)
  | some session =>
    if session.isRevoked then
      (.error .tokenReuseDetected, (revokeAllSessionsByUserId db session.userId).2)
    else if session.expiresAt < now then
      (.error .refreshTokenExpired, (revokeSession db session.id none).2)
    else
      match findUserById db session.userId with
      | none => (.error .userInvalid, (revokeSession db session.id none).2)
      | some user =>
        if user.isActive == false || user.isLocked then
          (.error .userInvalid, (revokeSession db session.id none).2)
        else
          (.ok (generateAccessToken user now), db)

/-- Embeds `AuthService.logout(refreshToken)`: revoke the owning session when one
is found; all errors are swallowed, so the function is total and returns
no error. -/
def logout (db : Db) (token : String) : Db :=
  match findSessionByToken db token with
  | none => db
  | some session => (revokeSession db session.id none).2

/-- Embeds `AuthService.unlockAccount(userId)`. -/
def unlockAccount (db : Db) (userId : String) : Db :=
  updateUser db userId (fun u =>
    { u with isLocked := false, lockedUntil := none, failedLoginAttempts := 0 })

/-- Embeds `AuthService.resetFailedLoginAttempts(userId)`. -/
def resetFailedLoginAttempts (db : Db) (userId : String) : Db :=
  updateUser db userId (fun u =>
    { u with failedLoginAttempts := 0, isLocked := false, lockedUntil := none })

/-- Embeds `AuthService.handleFailedLogin(email)` at `auth.service.ts:466-504`:
re-read the user by normalized email; increment `failedLoginAttempts`; when
the new count reaches `maxFailedLoginAttempts`, also set `isLocked` and
`lockedUntil = now + accountLockoutDuration`.  Own errors are swallowed. -/
def handleFailedLogin (db : Db) (email : String) (now : Nat) : Db :=
  match findUserByEmail db (lowerStr email) with
  | none => db
  | some user =>
    let newFailedAttempts := user.failedLoginAttempts + 1
    let shouldLockAccount :=
      newFailedAttempts ≥ authConfig.security.maxFailedLoginAttempts
    updateUser db user.id (fun u =>
      if shouldLockAccount then
        { u with failedLoginAttempts := newFailedAttempts
               , isLocked := true
               , lockedUntil := some (now + authConfig.security.accountLockoutDurationMs) }
      else
        { u with failedLoginAttempts := newFailedAttempts })

/-- What a successful `register`/`login` returns (the `user` echo is
reduced to its id; tokens as in the source). -/
structure AuthResponse where
  userId : String
  accessToken : SignedJwt
  refreshToken : String
  deriving Repr, DecidableEq

/-- Embeds `AuthService.createUserSession(userId)`: a session expiring 7 days from
now. -/
def createUserSession (db : Db) (userId : String) (now : Nat) :
    Session × Db :=
  createSession db userId (now + 7 * 24 * 60 * 60 * 1000) now

/-- The tail of `AuthService.login` after the lock check: active check,
password verification via the in-memory `user` snapshot, failed-attempt
bookkeeping, session creation.  `db` may already differ from the snapshot
when the lock was cleared. -/
def loginAfterLockCheck (db : Db) (user : User) (email password : String)
    (now : Nat) : Except AuthError AuthResponse × Db :=
  if user.isActive == false then
    (.error .accountInactive, db)
  else if verifyPassword user.password password == false then
    (.error .invalidCredentials, handleFailedLogin db email now)
  else
    let db1 := if user.failedLoginAttempts > 0
               then resetFailedLoginAttempts db user.id else db
    let sdb := createUserSession db1 user.id now
    ( .ok { userId := user.id
          , accessToken := generateAccessToken user now
          , refreshToken := sdb.1.refreshToken }
    , sdb.2 )

/-- Embeds `AuthService.login(data)` at `auth.service.ts:89-156`: lookup by
normalized email (absent → count a failed attempt, `INVALID_CREDENTIALS`);
locked with `lockedUntil` in the future → `ACCOUNT_LOCKED`, locked
otherwise → clear the lock and proceed; then the post-lock tail. -/
def login (db : Db) (email password : String) (now : Nat) :
    Except AuthError AuthResponse × Db :=
  match findUserByEmail db (lowerStr email) with
  | none => (.error .invalidCredentials, handleFailedLogin db email now)
  | some user =>
    if user.isLocked then
      match user.lockedUntil with
      | some lockedUntil =>
        if lockedUntil > now then
          (.error .accountLocked, db)
        else
          loginAfterLockCheck (unlockAccount db user.id) user email password now
      | none =>
        loginAfterLockCheck (unlockAccount db user.id) user email password now
    else
      loginAfterLockCheck db user email password now

/-- Embeds `AuthService.changePassword(userId, currentPassword, newPassword)` at
`auth.service.ts:236-281`: `USER_NOT_FOUND` when the id resolves to no
user; `INVALID_PASSWORD` when the current password does not verify;
otherwise store the new digest and revoke every session of the user. -/
def changePassword (db : Db) (userId currentPassword newPassword : String) :
    Except AuthError Unit × Db :=
  match findUserById db userId with
  | none => (.error .userNotFound, db)
  | some user =>
    if verifyPassword user.password currentPassword == false then
      (.error .invalidPassword, db)
    else
      let db1 := updateUser db userId (fun u =>
        { u with password := hashPassword newPassword })
      (.ok (), (revokeAllSessionsByUserId db1 userId).2)

/-- Embeds `AuthService.register(data)` at `auth.service.ts:28-84`, with the
check/create race of spec §5 made explicit: `raceUser`, when present, is a
row inserted by a concurrent request between the `findUnique` existence
check and the `create` call.  `prisma.user.create` raises the store's
uniqueness-constraint violation when the normalized email is already
taken; that exception is not an `AuthError`, so the catch-all at
`auth.service.ts:74-83` rethrows it as `REGISTRATION_FAILED`. -/
def register (db : Db) (email password : String) (name : Option String)
    (raceUser : Option User) (now : Nat) : Except AuthError AuthResponse × Db :=
  match findUserByEmail db (lowerStr email) with
  | some _ => (.error .userExists, db)
  | none =>
    let db1 := match raceUser with
               | some u => { db with users := db.users ++ [u] }
               | none => db
    if db1.users.any (fun u => u.email == lowerStr email) then
      (.error .registrationFailed, db1)
    else
      let newUser : User :=
        { id := "user-" ++ toString db1.nextId
        , email := lowerStr email
        , password := hashPassword password
        , name := name
        , isActive := true
        , isLocked := false
        , failedLoginAttempts := 0
        , lockedUntil := none }
      let db2 := { db1 with users := db1.users ++ [newUser], nextId := db1.nextId + 1 }
      let sdb := createUserSession db2 newUser.id now
      ( .ok { userId := newUser.id
            , accessToken := generateAccessToken newUser now
            , refreshToken := sdb.1.refreshToken }
      , sdb.2 )

/-- Store invariant backing Prisma's `@unique` on `Session.refreshToken`:
no two session rows share a refresh-token value. -/
def tokensUnique (db : Db) : Prop :=
  db.sessions.Pairwise (fun a b => a.refreshToken ≠ b.refreshToken)

/-! ## Generic list lemmas for `find?` over row updates -/

/-- A row update that does not change the lookup key commutes with
`find?`. -/
theorem find?_map_key {α : Type} (p : α → Bool) (f : α → α)
    (hf : ∀ x, p (f x) = p x) (l : List α) (u : α)
    (h : l.find? p = some u) : (l.map f).find? p = some (f u) := by
  induction l with
  | nil => simp at h
  | cons a l ih =>
    by_cases hpa : p a = true
    · rw [List.find?_cons_of_pos _ hpa] at h
      rw [List.map_cons, List.find?_cons_of_pos]
      · injection h with h; rw [h]
      · rw [hf]; exact hpa
    · rw [List.find?_cons_of_neg _ hpa] at h
      rw [List.map_cons, List.find?_cons_of_neg]
      · exact ih h
      · rw [hf]; exact hpa

/-- Looking up a member of a list by a key that is unique across the list
finds exactly that member. -/
theorem find?_key_of_mem {α : Type} [BEq α] [LawfulBEq α] (k : α → String)
    (l : List α) (u : α) (hpw : l.Pairwise (fun a b => k a ≠ k b))
    (hu : u ∈ l) : l.find? (fun x => k x == k u) = some u := by
  induction l with
  | nil => simp at hu
  | cons a l ih =>
    rcases List.mem_cons.mp hu with rfl | hu'
    · apply List.find?_cons_of_pos
      simp
    · have hcons := List.pairwise_cons.mp hpw
      have hne : k a ≠ k u := hcons.1 u hu'
      rw [List.find?_cons_of_neg]
      · exact ih hcons.2 hu'
      · simp [hne]

/-- A filtered list has positive length iff some member satisfies the
predicate. -/
theorem filter_length_pos_iff {α : Type} (p : α → Bool) (l : List α) :
    0 < (l.filter p).length ↔ ∃ a ∈ l, p a := by
  rw [← List.countP_eq_length_filter p l]
  exact List.countP_pos_iff

/-- Re-revoking a revoked session row is the identity. -/
theorem session_mark_revoked_id (s : Session) (h : s.isRevoked = true) :
    { s with isRevoked := true } = s := by
  cases s
  simp_all

/-! ## Concrete scenario data used by witnesses and counterexamples -/

def demoUser : User :=
  { id := "u1", email := "a@x.com", password := hashPassword "Aa1!aaaa"
  , name := none, isActive := true, isLocked := false
  , failedLoginAttempts := 0, lockedUntil := none }

def demoSession : Session :=
  { id := "s1", userId := "u1", refreshToken := "tokA"
  , isRevoked := false, expiresAt := 1000, createdAt := 0 }

def revokedDemoSession : Session :=
  { id := "s2", userId := "u1", refreshToken := "tokB"
  , isRevoked := true, expiresAt := 1000, createdAt := 0 }

def demoDb : Db :=
  { users := [demoUser], sessions := [demoSession, revokedDemoSession], nextId := 0 }

/-! ## Claims -/

/-- C8: on the success path of `refreshToken` (session found, not revoked,
not expired, owner active and unlocked) the store — in particular the
session record, its `refreshToken`, `isRevoked` and `expiresAt` — is left
entirely unchanged, and only a fresh access token is minted. -/
theorem refresh_success_frame (db : Db) (tok : String) (now : Nat)
    (s : Session) (u : User)
    (hfind : findSessionByToken db tok = some s)
    (hrev : s.isRevoked = false)
    (hexp : ¬ s.expiresAt < now)
    (huser : findUserById db s.userId = some u)
    (hact : u.isActive = true)
    (hlock : u.isLocked = false) :
    refreshToken db tok now = (.ok (generateAccessToken u now), db) := by
  unfold refreshToken
  rw [hfind]
  simp [hrev, hexp, huser, hact, hlock]

theorem refresh_success_frame_witness :
    refreshToken demoDb "tokA" 5 = (.ok (generateAccessToken demoUser 5), demoDb) :=
  refresh_success_frame demoDb "tokA" 5 demoSession demoUser (by decide)
    (by decide) (by decide) (by decide) (by decide) (by decide)

/-- C5 (amended): a session found by the presented token with
`isRevoked = false` is revoked and rejected with `RefreshTokenExpired`
when `expiresAt < now` strictly; at the boundary `expiresAt = now` the
code's `session.expiresAt < new Date()` test is false, so the call is not
rejected as expired. -/
theorem refresh_expired_strict (db : Db) (tok : String) (now : Nat)
    (s : Session)
    (hfind : findSessionByToken db tok = some s)
    (hrev : s.isRevoked = false) :
    (s.expiresAt < now →
      (refreshToken db tok now).1 = .error .refreshTokenExpired ∧
      ∀ s' ∈ (refreshToken db tok now).2.sessions,
        s'.id = s.id → s'.isRevoked = true) ∧
    (s.expiresAt = now →
      (refreshToken db tok now).1 ≠ .error .refreshTokenExpired) := by
  constructor
  · intro hexp
    have hres : refreshToken db tok now =
        (.error .refreshTokenExpired, (revokeSession db s.id none).2) := by
      unfold refreshToken
      rw [hfind]
      simp [hrev, hexp]
    rw [hres]
    refine ⟨rfl, ?_⟩
    intro s' hs' hid
    simp only [revokeSession, List.mem_map] at hs'
    obtain ⟨x, hxmem, hx⟩ := hs'
    by_cases hm : revokeMatch s.id none x = true
    · rw [if_pos hm] at hx
      rw [← hx]
    · rw [if_neg hm] at hx
      subst hx
      exact absurd (by simp [revokeMatch, hid]) hm
  · intro hexp
    have hlt : ¬ s.expiresAt < now := by omega
    unfold refreshToken
    rw [hfind]
    simp only [hrev, hlt, Bool.false_eq_true, if_false]
    cases huser : findUserById db s.userId with
    | none => simp [huser]
    | some u =>
      simp only [huser]
      split <;> simp

theorem refresh_expired_strict_witness :
    ((refreshToken demoDb "tokA" 2000).1 = .error .refreshTokenExpired ∧
      findSessionByToken (refreshToken demoDb "tokA" 2000).2 "tokA"
        = some { demoSession with isRevoked := true }) ∧
    (refreshToken demoDb "tokA" 1000).1 ≠ .error .refreshTokenExpired := by
  have h := refresh_expired_strict demoDb "tokA" 2000 demoSession (by decide) (by decide)
  have h2 := refresh_expired_strict demoDb "tokA" 1000 demoSession (by decide) (by decide)
  exact ⟨⟨(h.1 (by decide)).1, by decide⟩, h2.2 (by decide)⟩

/-- C5 counterexample: at the boundary `expiresAt = now` the claim demands
`RefreshTokenExpired` plus revocation, but the code proceeds and succeeds:
`demoSession` expires at 1000 and a refresh at `now = 1000` mints a token
and leaves the store untouched. -/
theorem refresh_boundary_counterexample :
    demoSession.expiresAt = 1000 ∧ demoSession.isRevoked = false ∧
    refreshToken demoDb "tokA" 1000 = (.ok (generateAccessToken demoUser 1000), demoDb) :=
  ⟨rfl, rfl, rfl⟩

/-- C10: a token minted by `generateAccessToken` validates, before its
expiry, to exactly the `(userId, email)` pair of the user it was minted
for — the payload carries `type = "access"`, the configured secret and the
configured algorithm, so `validateAccessToken` accepts it. -/
theorem mint_validate_roundtrip (u : User) (tMint tCheck : Nat)
    (h : tCheck < tMint + authConfig.jwt.accessTokenExpiryMs) :
    validateAccessToken (.signed (generateAccessToken u tMint)) tCheck
      = some (u.id, u.email) := by
  unfold validateAccessToken jwtVerify generateAccessToken
  have hexp : ¬ tMint + authConfig.jwt.accessTokenExpiryMs ≤ tCheck := by omega
  simp [hexp]

theorem mint_validate_roundtrip_witness :
    validateAccessToken (.signed (generateAccessToken demoUser 0)) 599999
      = some ("u1", "a@x.com") :=
  mint_validate_roundtrip demoUser 0 599999 (by decide)

/-- C2 counterexample: `revokeSession`'s `updateMany` filter tests only
`id` (and, when given, `userId`) but not `isRevoked`, so re-revoking the
already-revoked session `s2` still matches one row and returns `true`,
where the claim demands `false`. -/
theorem revoke_revoked_counterexample :
    revokedDemoSession ∈ demoDb.sessions ∧
    revokedDemoSession.id = "s2" ∧
    revokedDemoSession.isRevoked = true ∧
    (revokeSession demoDb "s2" none).1 = true := by
  decide

/-- Pointwise form of the row update performed by `revokeSession`. -/
def revokeApply (sessionId : String) (owner : Option String) (s : Session) : Session :=
  if revokeMatch sessionId owner s then { s with isRevoked := true } else s

/-- C2 (amended): `revokeSession` returns `true` iff a session matching
the id (and, for a present non-empty `ownerUserId`, the owner) exists —
regardless of its prior `isRevoked` value; afterwards every matching
session is revoked and non-matching sessions survive untouched; when every
matching session was already revoked the store is unchanged even though
the result is still `true` for an existing match. -/
theorem revokeSession_spec (db : Db) (sid : String) (owner : Option String) :
    ((revokeSession db sid owner).1 = true ↔
      ∃ s ∈ db.sessions, revokeMatch sid owner s = true) ∧
    (∀ s' ∈ (revokeSession db sid owner).2.sessions,
      revokeMatch sid owner s' = true → s'.isRevoked = true) ∧
    (∀ s ∈ db.sessions, revokeMatch sid owner s = false →
      s ∈ (revokeSession db sid owner).2.sessions) ∧
    ((∀ s ∈ db.sessions, revokeMatch sid owner s = true → s.isRevoked = true) →
      (revokeSession db sid owner).2 = db) := by
  refine ⟨?_, ?_, ?_, ?_⟩
  · simp only [revokeSession, decide_eq_true_eq]
    exact filter_length_pos_iff _ _
  · intro s' hs' hm
    simp only [revokeSession, List.mem_map] at hs'
    obtain ⟨x, hxmem, hx⟩ := hs'
    by_cases hmx : revokeMatch sid owner x = true
    · rw [if_pos hmx] at hx
      rw [← hx]
    · rw [if_neg hmx] at hx
      subst hx
      exact absurd hm hmx
  · intro s hs hm
    simp only [revokeSession, List.mem_map]
    exact ⟨s, hs, by rw [hm]; rfl⟩
  · intro hall
    simp only [revokeSession]
    have h : db.sessions.map
        (fun s => if revokeMatch sid owner s then { s with isRevoked := true } else s)
        = db.sessions := by
      have h0 : ∀ x ∈ db.sessions,
          (fun s => if revokeMatch sid owner s then { s with isRevoked := true } else s) x
            = id x := by
        intro x hx
        by_cases hmx : revokeMatch sid owner x = true
        · simp only [hmx, if_true, id]
          exact session_mark_revoked_id x (hall x hx hmx)
        · simp [hmx]
      rw [List.map_congr_left h0, List.map_id]
    rw [h]

theorem revokeSession_spec_witness :
    (revokeSession demoDb "s2" none).2 = demoDb ∧
    (revokeSession demoDb "s1" none).1 = true := by
  have h2 := revokeSession_spec demoDb "s2" none
  have h1 := revokeSession_spec demoDb "s1" none
  exact ⟨h2.2.2.2 (by decide), h1.1.mpr ⟨demoSession, by decide, by decide⟩⟩

/-- A well-formed token carrying the configured secret and algorithm, an
unexpired lifetime and `type = "access"`, but an issuer/audience pair
different from `smart-task-ai2`/`smart-task-ai2-users`. -/
def evilIssuerJwt : SignedJwt :=
  { payload := { userId := "u1", email := "a@x.com", type := "access" }
  , secret := authConfig.jwt.secret
  , alg := "HS512"
  , issuer := some "evil-issuer"
  , audience := some "evil-audience"
  , expiresAt := 1000 }

/-- C3 counterexample: `validateAccessToken` calls `jwt.verify` with only
the `algorithms` option, so a token whose issuer and audience do not match
the fixed pair is still accepted, where the claim demands the invalid
sentinel. -/
theorem validate_ignores_issuer_counterexample :
    evilIssuerJwt.issuer ≠ some "smart-task-ai2" ∧
    evilIssuerJwt.audience ≠ some "smart-task-ai2-users" ∧
    validateAccessToken (.signed evilIssuerJwt) 0 = some ("u1", "a@x.com") := by
  decide

/-- C3 (amended): `validateAccessToken` never raises (it is a total
function into `Option`); it returns the invalid sentinel `none` on a
structurally malformed token and on a well-formed token exactly when the
algorithm differs from the configured one, the signing key differs from
the configured secret, the token is expired, or the `type` claim is not
`"access"` — issuer and audience are not checked — and otherwise returns
the decoded `(userId, email)` claims. -/
theorem validateAccessToken_spec (token : JwtInput) (now : Nat) :
    (∀ raw, token = .malformed raw → validateAccessToken token now = none) ∧
    (∀ t : SignedJwt, token = .signed t →
      validateAccessToken token now =
        if t.alg = authConfig.jwt.algorithm ∧ t.secret = authConfig.jwt.secret ∧
           now < t.expiresAt ∧ t.payload.type = "access"
        then some (t.payload.userId, t.payload.email)
        else none) := by
  constructor
  · intro raw h
    subst h
    rfl
  · intro t h
    subst h
    simp only [validateAccessToken, jwtVerify, List.contains_cons,
      List.contains_nil, Bool.or_false, beq_iff_eq]
    by_cases h1 : t.alg = authConfig.jwt.algorithm
    · by_cases h2 : t.secret = authConfig.jwt.secret
      · by_cases h3 : t.expiresAt ≤ now
        · have h3' : ¬ now < t.expiresAt := by omega
          simp [h1, h2, h3, h3', eq_comm]
        · have h3' : now < t.expiresAt := by omega
          by_cases h4 : t.payload.type = "access"
          · simp [h1, h2, h3, h3', h4, eq_comm]
          · simp [h1, h2, h3, h3', h4, eq_comm]
      · simp [h1, h2, eq_comm]
    · have h1' : ¬ authConfig.jwt.algorithm = t.alg := fun h => h1 h.symm
      simp [h1, h1']

theorem validateAccessToken_spec_witness :
    validateAccessToken (.malformed "not-a-jwt") 0 = none ∧
    validateAccessToken (.signed evilIssuerJwt) 1000 = none := by
  have h1 := (validateAccessToken_spec (JwtInput.malformed "not-a-jwt") 0).1 "not-a-jwt" rfl
  have h2 := (validateAccessToken_spec (JwtInput.signed evilIssuerJwt) 1000).2 evilIssuerJwt rfl
  refine ⟨h1, ?_⟩
  rw [h2, if_neg]
  decide

def emptyDb : Db := { users := [], sessions := [], nextId := 0 }

/-- The user row inserted by the concurrent registration in the C9 race
scenario. -/
def raceUserDemo : User :=
  { id := "u9", email := "a@x.com", password := hashPassword "other"
  , name := none, isActive := true, isLocked := false
  , failedLoginAttempts := 0, lockedUntil := none }

/-- C9 counterexample: when the store's create raises a
uniqueness-constraint violation (a concurrent registration inserted the
same normalized email after the initial existence check), the catch-all at
`auth.service.ts:74-83` rethrows it as the generic `REGISTRATION_FAILED`,
not `USER_EXISTS` as the claim demands. -/
theorem register_race_counterexample :
    (register emptyDb "a@x.com" "pw" none (some raceUserDemo) 0).1
      = .error .registrationFailed ∧
    AuthError.registrationFailed ≠ AuthError.userExists := by
  exact ⟨rfl, by decide⟩

/-- C9 (amended): a uniqueness-constraint violation raised at create time
is not an `AuthError`, so `register`'s catch-all converts it into the
generic `REGISTRATION_FAILED` error (and the concurrently-inserted row is
the only change to the store). -/
theorem register_race_conflict (db : Db) (email pw : String)
    (nm : Option String) (ru : User) (now : Nat)
    (hfind : findUserByEmail db (lowerStr email) = none)
    (hru : ru.email = lowerStr email) :
    register db email pw nm (some ru) now =
      (.error .registrationFailed, { db with users := db.users ++ [ru] }) := by
  unfold register
  rw [hfind]
  have hany : ((db.users ++ [ru]).any (fun u => u.email == lowerStr email)) = true := by
    simp [List.any_append, hru]
  simp [hany]

theorem register_race_conflict_witness :
    register emptyDb "a@x.com" "pw" none (some raceUserDemo) 0 =
      (.error .registrationFailed, { emptyDb with users := emptyDb.users ++ [raceUserDemo] }) :=
  register_race_conflict emptyDb "a@x.com" "pw" none raceUserDemo 0 (by decide) (by decide)

/-- Revoking the same session id twice is the same as revoking it once
(the second `updateMany` rewrites rows that are already revoked). -/
theorem revokeSession_twice (db : Db) (sid : String) (owner : Option String) :
    (revokeSession (revokeSession db sid owner).2 sid owner).2
      = (revokeSession db sid owner).2 := by
  simp only [revokeSession]
  have h : (db.sessions.map (revokeApply sid owner)).map (revokeApply sid owner)
      = db.sessions.map (revokeApply sid owner) := by
    rw [List.map_map]
    apply List.map_congr_left
    intro x hx
    show revokeApply sid owner (revokeApply sid owner x) = revokeApply sid owner x
    by_cases hmx : revokeMatch sid owner x = true
    · simp [revokeApply, hmx]
    · simp [revokeApply, hmx]
  exact congrArg (fun l => { db with sessions := l }) h

/-- C7: `logout` is a total function (the source swallows every internal
error), it leaves the store unchanged when no session matches the
presented token, and a second `logout` with the same token leaves the
session store in exactly the state the first one produced. -/
theorem logout_total_idempotent (db : Db) (tok : String) :
    (findSessionByToken db tok = none → logout db tok = db) ∧
    logout (logout db tok) tok = logout db tok := by
  constructor
  · intro h
    unfold logout
    rw [h]
  · cases hfind : findSessionByToken db tok with
    | none =>
      have h : logout db tok = db := by
        unfold logout
        rw [hfind]
      rw [h]
      exact h
    | some s =>
      have h1 : logout db tok = (revokeSession db s.id none).2 := by
        unfold logout
        rw [hfind]
      have hfind2 : findSessionByToken (revokeSession db s.id none).2 tok
          = some (revokeApply s.id none s) := by
        unfold findSessionByToken at hfind ⊢
        simp only [revokeSession]
        exact find?_map_key _ (revokeApply s.id none)
          (fun x => by
            by_cases hmx : revokeMatch s.id none x = true
            · simp [revokeApply, hmx]
            · simp [revokeApply, hmx])
          db.sessions s hfind
      have hmatch : revokeMatch s.id none s = true := by simp [revokeMatch]
      have hid : (revokeApply s.id none s).id = s.id := by
        simp [revokeApply, hmatch]
      have h2 : logout (revokeSession db s.id none).2 tok
          = (revokeSession (revokeSession db s.id none).2
              (revokeApply s.id none s).id none).2 := by
        unfold logout
        rw [hfind2]
      rw [h1, h2, hid]
      exact revokeSession_twice db s.id none

theorem logout_total_idempotent_witness :
    logout demoDb "no-such-token" = demoDb ∧
    logout (logout demoDb "tokA") "tokA" = logout demoDb "tokA" := by
  have h1 := logout_total_idempotent demoDb "no-such-token"
  have h2 := logout_total_idempotent demoDb "tokA"
  exact ⟨h1.1 (by decide), h2.2⟩

/-- C1: presenting the refresh token of a stored revoked session makes
`refreshToken` fail with `TokenReuseDetected`, and as a side effect every
session of that session's owner is revoked, so the owner has zero active
sessions afterwards. -/
theorem refresh_reuse_revokes_all (db : Db) (s : Session) (now : Nat)
    (hmem : s ∈ db.sessions) (huniq : tokensUnique db)
    (hrev : s.isRevoked = true) :
    (refreshToken db s.refreshToken now).1 = .error .tokenReuseDetected ∧
    (∀ s' ∈ (refreshToken db s.refreshToken now).2.sessions,
      s'.userId = s.userId → s'.isRevoked = true) ∧
    (∀ t, findActiveSessionsByUserId (refreshToken db s.refreshToken now).2
      s.userId t = []) := by
  have hfind : findSessionByToken db s.refreshToken = some s :=
    find?_key_of_mem Session.refreshToken db.sessions s huniq hmem
  have hres : refreshToken db s.refreshToken now =
      (.error .tokenReuseDetected, (revokeAllSessionsByUserId db s.userId).2) := by
    unfold refreshToken
    rw [hfind]
    simp [hrev]
  rw [hres]
  have hall : ∀ s' ∈ (revokeAllSessionsByUserId db s.userId).2.sessions,
      s'.userId = s.userId → s'.isRevoked = true := by
    intro s' hs' huid
    simp only [revokeAllSessionsByUserId, List.mem_map] at hs'
    obtain ⟨x, hxmem, hx⟩ := hs'
    by_cases hmx : (x.userId == s.userId && x.isRevoked == false) = true
    · rw [if_pos hmx] at hx
      rw [← hx]
    · rw [if_neg hmx] at hx
      subst hx
      simp only [Bool.and_eq_true, beq_iff_eq] at hmx
      rcases not_and_or.mp hmx with h | h
      · exact absurd huid h
      · simpa using h
  refine ⟨rfl, hall, ?_⟩
  intro t
  unfold findActiveSessionsByUserId
  rw [List.filter_eq_nil_iff]
  intro a ha
  by_cases huid : a.userId = s.userId
  · have := hall a ha huid
    simp [this]
  · simp [huid]

theorem refresh_reuse_revokes_all_witness :
    (refreshToken demoDb "tokB" 5).1 = .error .tokenReuseDetected ∧
    findActiveSessionsByUserId (refreshToken demoDb "tokB" 5).2 "u1" 5 = [] := by
  have h := refresh_reuse_revokes_all demoDb revokedDemoSession 5
    (by decide) (by unfold tokensUnique; decide) (by decide)
  exact ⟨h.1, h.2.2 5⟩

/-- A user-row update that keeps the email commutes with lookup by
email. -/
theorem findUserByEmail_updateUser (db : Db) (em uid : String) (u : User)
    (g : User → User) (hg : ∀ x, (g x).email = x.email)
    (hfind : findUserByEmail db em = some u) :
    findUserByEmail (updateUser db uid g) em
      = some (if u.id == uid then g u else u) := by
  unfold findUserByEmail at hfind
  unfold findUserByEmail updateUser
  exact find?_map_key _ (fun x => if x.id == uid then g x else x)
    (fun x => by
      by_cases h : (x.id == uid) = true
      · simp [h, hg]
      · simp [h])
    db.users u hfind

/-- A user-row update that keeps the id commutes with lookup by id. -/
theorem findUserById_updateUser (db : Db) (uid : String) (u : User)
    (g : User → User) (hg : ∀ x, (g x).id = x.id)
    (hfind : findUserById db uid = some u) :
    findUserById (updateUser db uid g) uid = some (g u) := by
  have huid : (u.id == uid) = true := by
    simpa using List.find?_some hfind
  unfold findUserById at hfind
  unfold findUserById updateUser
  have h := find?_map_key (fun x : User => x.id == uid)
    (fun x => if x.id == uid then g x else x)
    (fun x => by
      by_cases h : (x.id == uid) = true
      · simp only [h, if_true]
        rw [hg]
        exact h
      · simp [h])
    db.users u hfind
  simpa [huid] using h

/-- C6: with a resolvable user and the correct current password,
`changePassword` succeeds, stores the new digest, and revokes all the
user's sessions, so that a subsequent `refreshToken` with any
previously-issued refresh token of that user fails `TokenReuseDetected`;
a wrong current password fails `InvalidPassword` leaving the store
unchanged, and an unresolvable id fails `UserNotFound` leaving the store
unchanged. -/
theorem changePassword_spec (db : Db) (uid cur npw : String) (now : Nat) :
    (findUserById db uid = none →
      changePassword db uid cur npw = (.error .userNotFound, db)) ∧
    (∀ u, findUserById db uid = some u → verifyPassword u.password cur = false →
      changePassword db uid cur npw = (.error .invalidPassword, db)) ∧
    (∀ u, findUserById db uid = some u → verifyPassword u.password cur = true →
      (changePassword db uid cur npw).1 = .ok () ∧
      findUserById (changePassword db uid cur npw).2 uid
        = some { u with password := hashPassword npw } ∧
      (tokensUnique db → ∀ s ∈ db.sessions, s.userId = uid →
        (refreshToken (changePassword db uid cur npw).2 s.refreshToken now).1
          = .error .tokenReuseDetected)) := by
  refine ⟨?_, ?_, ?_⟩
  · intro h
    unfold changePassword
    rw [h]
  · intro u hu hv
    unfold changePassword
    rw [hu]
    simp [hv]
  · intro u hu hv
    have huid : (u.id == uid) = true := by
      have := List.find?_some hu
      simpa using this
    have hres : changePassword db uid cur npw =
        (.ok (), (revokeAllSessionsByUserId
          (updateUser db uid (fun x => { x with password := hashPassword npw }))
          uid).2) := by
      unfold changePassword
      rw [hu]
      simp [hv]
    rw [hres]
    refine ⟨rfl, ?_, ?_⟩
    · -- the stored digest after the update
      exact findUserById_updateUser db uid u
        (fun x => { x with password := hashPassword npw }) (fun x => rfl) hu
    · intro huniq s hmem hsuid
      -- after revoke-all, the session found by this token is revoked
      have hfind0 : findSessionByToken db s.refreshToken = some s :=
        find?_key_of_mem Session.refreshToken db.sessions s huniq hmem
      have hfind1 : findSessionByToken
          (revokeAllSessionsByUserId
            (updateUser db uid (fun x => { x with password := hashPassword npw }))
            uid).2 s.refreshToken
          = some (if s.userId == uid && s.isRevoked == false
                  then { s with isRevoked := true } else s) := by
        unfold findSessionByToken at hfind0
        unfold findSessionByToken
        show List.find? _ ((revokeAllSessionsByUserId
            (updateUser db uid (fun x => { x with password := hashPassword npw }))
            uid).2.sessions) = _
        have hsess : (revokeAllSessionsByUserId
            (updateUser db uid (fun x => { x with password := hashPassword npw }))
            uid).2.sessions
            = db.sessions.map (fun x => if x.userId == uid && x.isRevoked == false
                then { x with isRevoked := true } else x) := rfl
        rw [hsess]
        exact find?_map_key _
          (fun x => if x.userId == uid && x.isRevoked == false
                    then { x with isRevoked := true } else x)
          (fun x => by
            show ((if x.userId == uid && x.isRevoked == false
                  then { x with isRevoked := true } else x).refreshToken
                    == s.refreshToken)
                = (x.refreshToken == s.refreshToken)
            split
            · rfl
            · rfl)
          db.sessions s hfind0
      have hrev : (if s.userId == uid && s.isRevoked == false
          then { s with isRevoked := true } else s).isRevoked = true := by
        by_cases h : (s.userId == uid && s.isRevoked == false) = true
        · rw [if_pos h]
        · rw [if_neg h]
          simp only [Bool.and_eq_true, beq_iff_eq] at h
          rcases not_and_or.mp h with h' | h'
          · exact absurd hsuid h'
          · simpa using h'
      generalize hX : (if s.userId == uid && s.isRevoked == false
          then { s with isRevoked := true } else s) = X at hfind1 hrev
      unfold refreshToken
      rw [hfind1]
      simp [hrev]

theorem changePassword_spec_witness :
    (changePassword demoDb "missing" "x" "y" = (.error .userNotFound, demoDb)) ∧
    (changePassword demoDb "u1" "bad-password" "y"
      = (.error .invalidPassword, demoDb)) ∧
    ((changePassword demoDb "u1" "Aa1!aaaa" "Bb2@bbbb").1 = .ok ()) ∧
    ((refreshToken (changePassword demoDb "u1" "Aa1!aaaa" "Bb2@bbbb").2 "tokA" 5).1
      = .error .tokenReuseDetected) := by
  have h0 := changePassword_spec demoDb "missing" "x" "y" 5
  have h1 := changePassword_spec demoDb "u1" "bad-password" "y" 5
  have h2 := changePassword_spec demoDb "u1" "Aa1!aaaa" "Bb2@bbbb" 5
  have hok := h2.2.2 demoUser (by decide) (by decide)
  exact ⟨h0.1 (by decide), h1.2.1 demoUser (by decide) (by decide),
    hok.1, hok.2.2 (by unfold tokensUnique; decide) demoSession (by decide) (by decide)⟩

/-- The row update `handleFailedLogin` performs on the user it found
(`newFailedAttempts = failedLoginAttempts + 1`; lock once the count
reaches the configured threshold). -/
def failUpdate (u : User) (now : Nat) : User :=
  if u.failedLoginAttempts + 1 ≥ authConfig.security.maxFailedLoginAttempts then
    { u with failedLoginAttempts := u.failedLoginAttempts + 1
           , isLocked := true
           , lockedUntil := some (now + authConfig.security.accountLockoutDurationMs) }
  else
    { u with failedLoginAttempts := u.failedLoginAttempts + 1 }

/-- An email-preserving update of the found user's row commutes with the
lookup that found it. -/
theorem findUserByEmail_updateSelf (db : Db) (em : String) (u : User)
    (g : User → User) (hg : ∀ x, (g x).email = x.email)
    (hfind : findUserByEmail db em = some u) :
    findUserByEmail (updateUser db u.id g) em = some (g u) := by
  have h := findUserByEmail_updateUser db em u.id u g hg hfind
  simpa using h

/-- After `handleFailedLogin`, the user found by the same email carries
the incremented (and possibly locked) record. -/
theorem handleFailedLogin_found (db : Db) (email : String) (u : User) (t : Nat)
    (hfind : findUserByEmail db (lowerStr email) = some u) :
    findUserByEmail (handleFailedLogin db email t) (lowerStr email)
      = some (failUpdate u t) := by
  have hstep : handleFailedLogin db email t
      = updateUser db u.id (fun x =>
          if u.failedLoginAttempts + 1 ≥ authConfig.security.maxFailedLoginAttempts then
            { x with failedLoginAttempts := u.failedLoginAttempts + 1
                   , isLocked := true
                   , lockedUntil := some (t + authConfig.security.accountLockoutDurationMs) }
          else
            { x with failedLoginAttempts := u.failedLoginAttempts + 1 }) := by
    unfold handleFailedLogin
    rw [hfind]
  rw [hstep]
  rw [findUserByEmail_updateSelf db (lowerStr email) u
    (fun x =>
      if u.failedLoginAttempts + 1 ≥ authConfig.security.maxFailedLoginAttempts then
        { x with failedLoginAttempts := u.failedLoginAttempts + 1
               , isLocked := true
               , lockedUntil := some (t + authConfig.security.accountLockoutDurationMs) }
      else
        { x with failedLoginAttempts := u.failedLoginAttempts + 1 })
    (fun x => by split <;> rfl) hfind]
  unfold failUpdate
  rfl

/-- A login attempt against an active, unlocked user with a wrong password
fails `InvalidCredentials` and records the failed attempt. -/
theorem login_wrong_password (db : Db) (email pw : String) (u : User) (t : Nat)
    (hfind : findUserByEmail db (lowerStr email) = some u)
    (hlock : u.isLocked = false)
    (hact : u.isActive = true)
    (hpw : verifyPassword u.password pw = false) :
    login db email pw t
      = (.error .invalidCredentials, handleFailedLogin db email t) := by
  unfold login loginAfterLockCheck
  rw [hfind]
  simp [hlock, hact, hpw]

/-- A login attempt against a user locked until a future instant fails
`AccountLocked` before the password is even checked. -/
theorem login_locked (db : Db) (email pw : String) (u : User) (t lu : Nat)
    (hfind : findUserByEmail db (lowerStr email) = some u)
    (hlock : u.isLocked = true)
    (hlu : u.lockedUntil = some lu)
    (ht : lu > t) :
    login db email pw t = (.error .accountLocked, db) := by
  unfold login
  rw [hfind]
  simp [hlock, hlu, ht]

/-- C4: starting from an active, unlocked user with zero failed attempts,
five consecutive wrong-password logins each fail `InvalidCredentials`; the
fifth sets `isLocked = true` and `lockedUntil = t5 + 15 min`, and a sixth
attempt — even with the correct password — fails `AccountLocked` while
`lockedUntil` is still in the future. -/
theorem lockout_after_five_failures (db : Db) (email wrongPw correctPw : String)
    (u : User) (t1 t2 t3 t4 t5 t6 : Nat)
    (hfind : findUserByEmail db (lowerStr email) = some u)
    (hact : u.isActive = true) (hlock : u.isLocked = false)
    (hfail : u.failedLoginAttempts = 0)
    (hwrong : verifyPassword u.password wrongPw = false)
    (hcorrect : verifyPassword u.password correctPw = true)
    (ht6 : t6 < t5 + authConfig.security.accountLockoutDurationMs) :
    (login db email wrongPw t1).1 = .error .invalidCredentials ∧
    (login (login db email wrongPw t1).2 email wrongPw t2).1
      = .error .invalidCredentials ∧
    (login (login (login db email wrongPw t1).2 email wrongPw t2).2
        email wrongPw t3).1 = .error .invalidCredentials ∧
    (login (login (login (login db email wrongPw t1).2 email wrongPw t2).2
        email wrongPw t3).2 email wrongPw t4).1 = .error .invalidCredentials ∧
    (login (login (login (login (login db email wrongPw t1).2 email wrongPw t2).2
        email wrongPw t3).2 email wrongPw t4).2 email wrongPw t5).1
      = .error .invalidCredentials ∧
    findUserByEmail (login (login (login (login (login db email wrongPw t1).2
        email wrongPw t2).2 email wrongPw t3).2 email wrongPw t4).2
        email wrongPw t5).2 (lowerStr email)
      = some { u with
          failedLoginAttempts := 5
          isLocked := true
          lockedUntil := some (t5 + authConfig.security.accountLockoutDurationMs) } ∧
    (login (login (login (login (login (login db email wrongPw t1).2
        email wrongPw t2).2 email wrongPw t3).2 email wrongPw t4).2
        email wrongPw t5).2 email correctPw t6).1 = .error .accountLocked := by
  have h1 := login_wrong_password db email wrongPw u t1 hfind hlock hact hwrong
  have hf1 : findUserByEmail (login db email wrongPw t1).2 (lowerStr email)
      = some { u with failedLoginAttempts := 1 } := by
    rw [h1]
    show findUserByEmail (handleFailedLogin db email t1) (lowerStr email) = _
    rw [handleFailedLogin_found db email u t1 hfind]
    unfold failUpdate
    simp [hfail, authConfig]
  have h2 := login_wrong_password (login db email wrongPw t1).2 email wrongPw
      { u with failedLoginAttempts := 1 } t2 hf1 hlock hact hwrong
  have hf2 : findUserByEmail
      (login (login db email wrongPw t1).2 email wrongPw t2).2 (lowerStr email)
      = some { u with failedLoginAttempts := 2 } := by
    rw [h2]
    show findUserByEmail (handleFailedLogin (login db email wrongPw t1).2 email t2)
        (lowerStr email) = _
    rw [handleFailedLogin_found _ email _ t2 hf1]
    unfold failUpdate
    simp [authConfig]
  have h3 := login_wrong_password
      (login (login db email wrongPw t1).2 email wrongPw t2).2 email wrongPw
      { u with failedLoginAttempts := 2 } t3 hf2 hlock hact hwrong
  have hf3 : findUserByEmail
      (login (login (login db email wrongPw t1).2 email wrongPw t2).2
        email wrongPw t3).2 (lowerStr email)
      = some { u with failedLoginAttempts := 3 } := by
    rw [h3]
    show findUserByEmail (handleFailedLogin
        (login (login db email wrongPw t1).2 email wrongPw t2).2 email t3)
        (lowerStr email) = _
    rw [handleFailedLogin_found _ email _ t3 hf2]
    unfold failUpdate
    simp [authConfig]
  have h4 := login_wrong_password
      (login (login (login db email wrongPw t1).2 email wrongPw t2).2
        email wrongPw t3).2 email wrongPw
      { u with failedLoginAttempts := 3 } t4 hf3 hlock hact hwrong
  have hf4 : findUserByEmail
      (login (login (login (login db email wrongPw t1).2 email wrongPw t2).2
        email wrongPw t3).2 email wrongPw t4).2 (lowerStr email)
      = some { u with failedLoginAttempts := 4 } := by
    rw [h4]
    show findUserByEmail (handleFailedLogin
        (login (login (login db email wrongPw t1).2 email wrongPw t2).2
          email wrongPw t3).2 email t4) (lowerStr email) = _
    rw [handleFailedLogin_found _ email _ t4 hf3]
    unfold failUpdate
    simp [authConfig]
  have h5 := login_wrong_password
      (login (login (login (login db email wrongPw t1).2 email wrongPw t2).2
        email wrongPw t3).2 email wrongPw t4).2 email wrongPw
      { u with failedLoginAttempts := 4 } t5 hf4 hlock hact hwrong
  have hf5 : findUserByEmail
      (login (login (login (login (login db email wrongPw t1).2 email wrongPw t2).2
        email wrongPw t3).2 email wrongPw t4).2 email wrongPw t5).2 (lowerStr email)
      = some { u with
          failedLoginAttempts := 5
          isLocked := true
          lockedUntil := some (t5 + authConfig.security.accountLockoutDurationMs) } := by
    rw [h5]
    show findUserByEmail (handleFailedLogin
        (login (login (login (login db email wrongPw t1).2 email wrongPw t2).2
          email wrongPw t3).2 email wrongPw t4).2 email t5) (lowerStr email) = _
    rw [handleFailedLogin_found _ email _ t5 hf4]
    unfold failUpdate
    simp [authConfig]
  have h6 := login_locked
      (login (login (login (login (login db email wrongPw t1).2 email wrongPw t2).2
        email wrongPw t3).2 email wrongPw t4).2 email wrongPw t5).2 email correctPw
      { u with
        failedLoginAttempts := 5
        isLocked := true
        lockedUntil := some (t5 + authConfig.security.accountLockoutDurationMs) }
      t6 (t5 + authConfig.security.accountLockoutDurationMs) hf5 rfl rfl ht6
  exact ⟨by rw [h1], by rw [h2], by rw [h3], by rw [h4], by rw [h5], hf5, by rw [h6]⟩

theorem lockout_after_five_failures_witness :
    findUserByEmail (login (login (login (login (login demoDb "a@x.com" "wrong" 1).2
        "a@x.com" "wrong" 2).2 "a@x.com" "wrong" 3).2 "a@x.com" "wrong" 4).2
        "a@x.com" "wrong" 5).2 (lowerStr "a@x.com")
      = some { demoUser with
          failedLoginAttempts := 5
          isLocked := true
          lockedUntil := some (5 + authConfig.security.accountLockoutDurationMs) } ∧
    (login (login (login (login (login (login demoDb "a@x.com" "wrong" 1).2
        "a@x.com" "wrong" 2).2 "a@x.com" "wrong" 3).2 "a@x.com" "wrong" 4).2
        "a@x.com" "wrong" 5).2 "a@x.com" "Aa1!aaaa" 6).1 = .error .accountLocked := by
  have h := lockout_after_five_failures demoDb "a@x.com" "wrong" "Aa1!aaaa" demoUser
      1 2 3 4 5 6 (by decide) (by decide) (by decide) (by decide) (by decide)
      (by decide) (by decide)
  exact ⟨h.2.2.2.2.2.1, h.2.2.2.2.2.2⟩

end SmartTask
